import Mathlib

/-!
Shallow embedding of `src/caolzbot/bot.py`: a multi-provider chat bot with
per-user conversation histories, a sliding-window truncation step, and a
command dispatcher.  Python dictionaries are modelled as association lists,
Python exceptions raised by the HTTP call or by response parsing as an
explicit `HttpResult.exn` constructor, and the one network call per message
as an `HttpResult` parameter.

A crucial point of the embedding is Python's aliasing semantics: in each
`generate_response`, the local name `history` starts out as an alias of the
stored list `self.conversation_histories[user_id]`, so `history.append(...)`
mutates the stored list; but `history = history[-20:]` rebinds the local name
to a fresh list, after which further appends no longer touch the stored list.
The embedding mirrors this by updating the stored map on the user-turn append
and by guarding the assistant-turn store update with the truncation condition.
-/

/-- Message roles, the `role` field of a history entry. -/
inductive Role where
  | system
  | user
  | assistant
deriving DecidableEq, Repr

/-- One history entry: the dict `{"role": ..., "content": ...}`. -/
structure Turn where
  role : Role
  content : String
deriving DecidableEq, Repr

/-- A per-user conversation history: a Python list of message dicts. -/
abbrev History := List Turn

/-- `conversation_histories`: a dict from user id to history. -/
abbrev Histories := List (String × History)

/-- Python dict read `d[k]` / `k in d`, modelled on an association list. -/
def dictLookup {α : Type} : List (String × α) → String → Option α
  | [], _ => none
  | (k', v) :: rest, k => if k' = k then some v else dictLookup rest k

/-- Python dict write `d[k] = v`: replace the binding if the key is present,
otherwise add it. -/
def dictSet {α : Type} : List (String × α) → String → α → List (String × α)
  | [], k, v => [(k, v)]
  | (k', v') :: rest, k, v =>
    if k' = k then (k', v) :: rest else (k', v') :: dictSet rest k v

/-- Python slice `l[-n:]` for `n > 0`: the last `n` elements (all of them when
the list is shorter than `n`). -/
def sliceLast {α : Type} (n : Nat) (l : List α) : List α :=
  l.drop (l.length - n)

/-- Python `str.lower()`: case-fold every character. -/
def pyLower (s : String) : String :=
  String.mk (s.data.map Char.toLower)

/-- Removal of every occurrence of a non-empty pattern, left to right, as in
Python `s.replace(pat, "")`.  The fuel argument (instantiated with the length
of the scanned list) makes the recursion structural; each step consumes at
least one character, so the fuel never runs out on the intended calls. -/
def removeAllAux (pat : List Char) : Nat → List Char → List Char
  | _, [] => []
  | 0, l => l
  | fuel + 1, c :: rest =>
    if pat.isPrefixOf (c :: rest) then
      removeAllAux pat fuel (List.drop (pat.length - 1) rest)
    else
      c :: removeAllAux pat fuel rest

/-- Python `s.replace(pat, "")` for the non-empty pattern `"caolzbot"` used
by the source. -/
def pyRemoveAll (s pat : String) : String :=
  String.mk (removeAllAux pat.data s.data.length s.data)

/-- Python `str.strip()`: drop whitespace from both ends. -/
def pyStrip (s : String) : String :=
  String.mk
    (((s.data.dropWhile Char.isWhitespace).reverse.dropWhile Char.isWhitespace).reverse)

/-- Python `str.startswith(p)`. -/
def pyStartsWith (s p : String) : Bool :=
  p.data.isPrefixOf s.data

/-- Helper for `pySplit`: scan the characters, accumulating the current
(reversed) token. -/
def pySplitAux : List Char → List Char → List String
  | [], acc => if acc.isEmpty then [] else [String.mk acc.reverse]
  | c :: rest, acc =>
    if c.isWhitespace then
      if acc.isEmpty then pySplitAux rest []
      else String.mk acc.reverse :: pySplitAux rest []
    else
      pySplitAux rest (c :: acc)

/-- Python `str.split()` with no separator: split on whitespace runs,
discarding empty tokens. -/
def pySplit (s : String) : List String :=
  pySplitAux s.data []

/-- Message normalisation in `on_message_activity`:
`text.lower().replace("caolzbot", "").strip()`. -/
def stripMessage (t : String) : String :=
  pyStrip (pyRemoveAll (pyLower t) "caolzbot")

/-- Prompt normalisation at the top of each `generate_response`:
`prompt.replace("caolzbot", "").strip()`. -/
def stripPrompt (p : String) : String :=
  pyStrip (pyRemoveAll p "caolzbot")

/-- The reply extracted from a well-formed 200 body: OpenAI and Deepseek read
the whole message object at `choices[0].message`; Anthropic reads the string
at `content[0].text`. -/
inductive WireReply where
  | msg (t : Turn)
  | text (s : String)
deriving DecidableEq, Repr

/-- Outcome of the single HTTP POST as observed by the client code:
either a completed response with a status code, the raw body text, and the
result of JSON-parsing plus field extraction (`Except.error e` models a
raised parse or key error with message `e`), or a transport-level exception. -/
inductive HttpResult where
  | ok (status : Nat) (body : String) (parsed : Except String WireReply)
  | exn (msg : String)

namespace AIClient

/-- `AIClient.clear_history`: if the user has an entry, set it to the empty
list and confirm; otherwise report that no history was found.  Returns the
updated `conversation_histories` together with the reply text. -/
def clear_history (hs : Histories) (user_id : String) : Histories × String :=
  match dictLookup hs user_id with
  | some _ => (dictSet hs user_id [], "对话历史已清除")
  | none => (hs, "没有找到对话历史")

end AIClient

namespace OpenAIClient

/-- The truncation step of `OpenAIClient.generate_response` (also used
verbatim by `AnthropicClient`): `if len(history) > 20: history = history[-20:]`. -/
def truncate_history (h : History) : History :=
  if h.length > 20 then sliceLast 20 h else h

/-- `OpenAIClient.generate_response`.  Request construction and logging are
omitted: they do not affect the stored state or the returned text.  The
stored map is updated by the user-turn append (which happens through the
alias), while the assistant-turn append only reaches the stored map when no
truncation rebinding happened (`h1.length ≤ 20`). -/
def generate_response (hs : Histories) (prompt user_id : String)
    (http : HttpResult) : Histories × String :=
  let prompt := stripPrompt prompt
  let h0 := (dictLookup hs user_id).getD []
  let h1 := h0 ++ [⟨Role.user, prompt⟩]
  let hs1 := dictSet hs user_id h1
  let hlocal := truncate_history h1
  match http with
  | .exn e => (hs1, "请求异常: " ++ e)
  | .ok status body parsed =>
    if status = 401 then
      (hs1, "认证失败，请检查API密钥设置")
    else if status = 200 then
      match parsed with
      | .ok (.msg t) =>
        (if h1.length > 20 then hs1 else dictSet hs1 user_id (hlocal ++ [t]),
         t.content)
      | .ok (.text _) => (hs1, "请求异常: 响应解析失败")
      | .error e => (hs1, "请求异常: " ++ e)
    else
      (hs1, "错误: " ++ toString status ++ " - " ++ body)

end OpenAIClient

namespace AnthropicClient

/-- `AnthropicClient.generate_response`.  Same history handling as the OpenAI
client; the 200 branch extracts `content[0].text` and appends
`{"role": "assistant", "content": response_content}`.  The wire-format role
mapping for the request payload is omitted: it only affects the outgoing
request, not the stored state or the returned text. -/
def generate_response (hs : Histories) (prompt user_id : String)
    (http : HttpResult) : Histories × String :=
  let prompt := stripPrompt prompt
  let h0 := (dictLookup hs user_id).getD []
  let h1 := h0 ++ [⟨Role.user, prompt⟩]
  let hs1 := dictSet hs user_id h1
  let hlocal := OpenAIClient.truncate_history h1
  match http with
  | .exn e => (hs1, "请求异常: " ++ e)
  | .ok status body parsed =>
    if status = 401 then
      (hs1, "认证失败，请检查API密钥设置")
    else if status = 200 then
      match parsed with
      | .ok (.text s) =>
        (if h1.length > 20 then hs1
         else dictSet hs1 user_id (hlocal ++ [⟨Role.assistant, s⟩]),
         s)
      | .ok (.msg _) => (hs1, "请求异常: 响应解析失败")
      | .error e => (hs1, "请求异常: " ++ e)
    else
      (hs1, "错误: " ++ toString status ++ " - " ++ body)

end AnthropicClient

namespace DeepseekClient

/-- The truncation step of `DeepseekClient.generate_response`: remember
`history[0]` when its role is `system`, slice to the last 20 entries, and if
the slice no longer starts with a system turn, insert the remembered system
turn back at index 0.  (The insertion makes the result 21 entries long.) -/
def truncate_history (h : History) : History :=
  if h.length > 20 then
    let sliced := sliceLast 20 h
    match h.head? with
    | some t0 =>
      if t0.role = Role.system then
        match sliced.head? with
        | some t1 => if t1.role = Role.system then sliced else t0 :: sliced
        | none => t0 :: sliced
      else sliced
    | none => sliced
  else h

/-- `DeepseekClient.generate_response`.  Differs from the OpenAI client in
seeding a system turn on an empty history and in the system-preserving
truncation step. -/
def generate_response (hs : Histories) (prompt user_id : String)
    (http : HttpResult) : Histories × String :=
  let prompt := stripPrompt prompt
  let h0 := (dictLookup hs user_id).getD []
  let h0 := if h0.isEmpty then [⟨Role.system, "You are a helpful assistant"⟩] else h0
  let h1 := h0 ++ [⟨Role.user, prompt⟩]
  let hs1 := dictSet hs user_id h1
  let hlocal := truncate_history h1
  match http with
  | .exn e => (hs1, "请求异常: " ++ e)
  | .ok status body parsed =>
    if status = 401 then
      (hs1, "认证失败，请检查API密钥设置")
    else if status = 200 then
      match parsed with
      | .ok (.msg t) =>
        (if h1.length > 20 then hs1 else dictSet hs1 user_id (hlocal ++ [t]),
         t.content)
      | .ok (.text _) => (hs1, "请求异常: 响应解析失败")
      | .error e => (hs1, "请求异常: " ++ e)
    else
      (hs1, "错误: " ++ toString status ++ " - " ++ body)

end DeepseekClient

/-- The three provider client variants registered by `MultiAIBot.__init__`. -/
inductive Provider where
  | openai
  | anthropic
  | deepseek
deriving DecidableEq, Repr

/-- A provider client instance: its subclass tag and its own
`conversation_histories` dict. -/
structure Client where
  provider : Provider
  conversation_histories : Histories
deriving DecidableEq, Repr

/-- Dynamic dispatch of `generate_response` on the client's subclass. -/
def Client.generate_response (c : Client) (prompt user_id : String)
    (http : HttpResult) : Client × String :=
  match c.provider with
  | .openai =>
    let r := OpenAIClient.generate_response c.conversation_histories prompt user_id http
    ({ c with conversation_histories := r.1 }, r.2)
  | .anthropic =>
    let r := AnthropicClient.generate_response c.conversation_histories prompt user_id http
    ({ c with conversation_histories := r.1 }, r.2)
  | .deepseek =>
    let r := DeepseekClient.generate_response c.conversation_histories prompt user_id http
    ({ c with conversation_histories := r.1 }, r.2)

/-- `clear_history` called through a client instance (inherited from
`AIClient`). -/
def Client.clear_history (c : Client) (user_id : String) : Client × String :=
  let r := AIClient.clear_history c.conversation_histories user_id
  ({ c with conversation_histories := r.1 }, r.2)

/-- The dispatcher's state: `self.ai_clients` (insertion-ordered dict),
`self.user_ai_choices`, and `self.default_ai`. -/
structure BotState where
  ai_clients : List (String × Client)
  user_ai_choices : List (String × String)
  default_ai : Option String
deriving DecidableEq, Repr

namespace MultiAIBot

/-- `MultiAIBot._get_user_ai_choice`:
`self.user_ai_choices.get(user_id, self.default_ai)`. -/
def get_user_ai_choice (s : BotState) (user_id : String) : Option String :=
  match dictLookup s.user_ai_choices user_id with
  | some c => some c
  | none => s.default_ai

/-- Python rendering of the current choice inside the `$list` reply: an
absent default prints as `None` in the f-string. -/
def showChoice : Option String → String
  | some c => c
  | none => "None"

/-- `", ".join(self.ai_clients.keys())`. -/
def joinClients (s : BotState) : String :=
  String.intercalate ", " (s.ai_clients.map Prod.fst)

/-- The non-command tail of `on_message_activity` (the generate section):
no clients configured, selected client unavailable, or a call to the selected
client's `generate_response`.  `ai_choice` is the selection computed at the
top of `on_message_activity`.  The second component is the text sent back,
`none` when nothing is sent. -/
def handle_ordinary (s : BotState) (user_id message : String)
    (ai_choice : Option String) (http : HttpResult) : BotState × Option String :=
  if s.ai_clients.isEmpty then
    (s, some "系统错误：未配置任何AI服务，请联系管理员")
  else
    match ai_choice with
    | none => (s, some "所选AI服务不可用，请选择其他服务或联系管理员")
    | some c =>
      match dictLookup s.ai_clients c with
      | none => (s, some "所选AI服务不可用，请选择其他服务或联系管理员")
      | some client =>
        let r := client.generate_response message user_id http
        ({ s with ai_clients := dictSet s.ai_clients c r.1 }, some r.2)

/-- `MultiAIBot.on_message_activity`.  Normalises the inbound text, computes
the caller's provider selection, handles `$list` / `$clear` / `$use`, and
otherwise falls through to `handle_ordinary`.  The `http` parameter is the
outcome of the one network call performed if a client is invoked. -/
def on_message_activity (s : BotState) (user_id raw_text : String)
    (http : HttpResult) : BotState × Option String :=
  let message := stripMessage raw_text
  let ai_choice := get_user_ai_choice s user_id
  if pyStartsWith message "$" then
    let command := (pySplit message).headD ""
    if command = "$list" then
      (s, some ("可用的AI模型: " ++ joinClients s ++ "\n当前使用的AI: "
        ++ showChoice ai_choice))
    else if command = "$clear" then
      match ai_choice with
      | some c =>
        match dictLookup s.ai_clients c with
        | some client =>
          let r := client.clear_history user_id
          ({ s with ai_clients := dictSet s.ai_clients c r.1 }, some r.2)
        | none => (s, none)
      | none => (s, none)
    else if command = "$use" then
      match (pySplit message).get? 1 with
      | some pid =>
        if (dictLookup s.ai_clients pid).isSome then
          ({ s with user_ai_choices := dictSet s.user_ai_choices user_id pid },
           some ("已切换至 " ++ pid))
        else
          (s, some ("可用的AI模型: " ++ joinClients s))
      | none => (s, some ("可用的AI模型: " ++ joinClients s))
    else
      handle_ordinary s user_id message ai_choice http
  else
    handle_ordinary s user_id message ai_choice http

/-- Python truthiness of an `os.getenv` result: `if key:` is false for `None`
and for the empty string. -/
def keyPresent : Option String → Bool
  | some k => !k.isEmpty
  | none => false

/-- The registry built by `MultiAIBot.__init__`: one entry per provider whose
environment key is present, in registration order openai, anthropic,
deepseek. -/
def build_ai_clients (openai_key anthropic_key deepseek_key : Option String) :
    List (String × Client) :=
  (if keyPresent openai_key then [("openai", ⟨Provider.openai, []⟩)] else [])
  ++ (if keyPresent anthropic_key then [("anthropic", ⟨Provider.anthropic, []⟩)] else [])
  ++ (if keyPresent deepseek_key then [("deepseek", ⟨Provider.deepseek, []⟩)] else [])

/-- `MultiAIBot.__init__`: build the registry from the three environment
keys, start with no per-user selections, and set
`default_ai = "openai" if "openai" in self.ai_clients else next(iter(self.ai_clients), None)`. -/
def mkBot (openai_key anthropic_key deepseek_key : Option String) : BotState :=
  let clients := build_ai_clients openai_key anthropic_key deepseek_key
  { ai_clients := clients
    user_ai_choices := []
    default_ai :=
      if (dictLookup clients "openai").isSome then some "openai"
      else clients.head?.map Prod.fst }

end MultiAIBot

/-! Concrete states used by counterexamples and witnesses. -/

/-- A history of 21 turns whose first entry is a system turn: a seeded system
preamble followed by 20 user turns. -/
def hSys21 : History :=
  ⟨Role.system, "You are a helpful assistant"⟩ :: List.replicate 20 ⟨Role.user, "x"⟩

/-- A stored map holding a history of exactly 20 turns for user `"u"`. -/
def stored20 : Histories :=
  [("u", List.replicate 20 ⟨Role.user, "x"⟩)]

/-- A 200 response carrying the well-formed OpenAI-schema envelope
`choices[0].message = {"role": "assistant", "content": "ok"}`. -/
def httpOk : HttpResult :=
  .ok 200 "body" (.ok (.msg ⟨Role.assistant, "ok"⟩))

/-- A dispatcher state as built at startup with only the OpenAI key set. -/
def botEx : BotState := MultiAIBot.mkBot (some "k") none none

/-! Helper lemmas about the dict model and the slicing step. -/

theorem dictLookup_dictSet_self {α : Type} (m : List (String × α)) (k : String) (v : α) :
    dictLookup (dictSet m k v) k = some v := by
  induction m with
  | nil => simp [dictLookup, dictSet]
  | cons p rest ih =>
    obtain ⟨k', v'⟩ := p
    by_cases h : k' = k <;> simp [dictLookup, dictSet, h, ih]

theorem dictLookup_some_not_nil {α : Type} {m : List (String × α)} {k : String} {v : α}
    (h : dictLookup m k = some v) : m.isEmpty = false := by
  cases m with
  | nil => simp [dictLookup] at h
  | cons p rest => rfl

theorem length_sliceLast {α : Type} (n : Nat) (l : List α) (h : n ≤ l.length) :
    (sliceLast n l).length = n := by
  simp only [sliceLast, List.length_drop]
  omega

/-- The 401 branch of the OpenAI client: auth-failure text, and the stored
map already holds the appended user turn. -/
theorem openai_generate_401 (hs : Histories) (prompt user_id body : String)
    (parsed : Except String WireReply) :
    OpenAIClient.generate_response hs prompt user_id (.ok 401 body parsed)
      = (dictSet hs user_id
          ((dictLookup hs user_id).getD [] ++ [⟨Role.user, stripPrompt prompt⟩]),
         "认证失败，请检查API密钥设置") := rfl

/-- The 401 branch of the Anthropic client. -/
theorem anthropic_generate_401 (hs : Histories) (prompt user_id body : String)
    (parsed : Except String WireReply) :
    AnthropicClient.generate_response hs prompt user_id (.ok 401 body parsed)
      = (dictSet hs user_id
          ((dictLookup hs user_id).getD [] ++ [⟨Role.user, stripPrompt prompt⟩]),
         "认证失败，请检查API密钥设置") := rfl

/-- The 401 branch of the Deepseek client (with the system-turn seeding on an
empty history). -/
theorem deepseek_generate_401 (hs : Histories) (prompt user_id body : String)
    (parsed : Except String WireReply) :
    DeepseekClient.generate_response hs prompt user_id (.ok 401 body parsed)
      = (dictSet hs user_id
          ((if ((dictLookup hs user_id).getD []).isEmpty
            then [⟨Role.system, "You are a helpful assistant"⟩]
            else (dictLookup hs user_id).getD [])
            ++ [⟨Role.user, stripPrompt prompt⟩]),
         "认证失败，请检查API密钥设置") := rfl

/-- The exception branch of the OpenAI client. -/
theorem openai_generate_exn (hs : Histories) (prompt user_id e : String) :
    OpenAIClient.generate_response hs prompt user_id (.exn e)
      = (dictSet hs user_id
          ((dictLookup hs user_id).getD [] ++ [⟨Role.user, stripPrompt prompt⟩]),
         "请求异常: " ++ e) := rfl

/-- The exception branch of the Anthropic client. -/
theorem anthropic_generate_exn (hs : Histories) (prompt user_id e : String) :
    AnthropicClient.generate_response hs prompt user_id (.exn e)
      = (dictSet hs user_id
          ((dictLookup hs user_id).getD [] ++ [⟨Role.user, stripPrompt prompt⟩]),
         "请求异常: " ++ e) := rfl

/-- The exception branch of the Deepseek client. -/
theorem deepseek_generate_exn (hs : Histories) (prompt user_id e : String) :
    DeepseekClient.generate_response hs prompt user_id (.exn e)
      = (dictSet hs user_id
          ((if ((dictLookup hs user_id).getD []).isEmpty
            then [⟨Role.system, "You are a helpful assistant"⟩]
            else (dictLookup hs user_id).getD [])
            ++ [⟨Role.user, stripPrompt prompt⟩]),
         "请求异常: " ++ e) := rfl

/-- Every branch of the generate section sends back some text. -/
theorem handle_ordinary_isSome (s : BotState) (uid m : String) (c : Option String)
    (http : HttpResult) :
    ((MultiAIBot.handle_ordinary s uid m c http).2).isSome = true := by
  unfold MultiAIBot.handle_ordinary
  split
  · rfl
  · split
    · rfl
    · split
      · rfl
      · rfl

/-- A message whose normalised text does not start with `$` goes to the
generate section. -/
theorem on_message_not_command (s : BotState) (uid raw : String) (http : HttpResult)
    (h : pyStartsWith (stripMessage raw) "$" = false) :
    MultiAIBot.on_message_activity s uid raw http
      = MultiAIBot.handle_ordinary s uid (stripMessage raw)
          (MultiAIBot.get_user_ai_choice s uid) http := by
  simp [MultiAIBot.on_message_activity, h]

/-! Claim theorems. -/

/-- Claim C1, counterexample: on a 21-turn history headed by a system turn,
the Deepseek truncation step slices to the last 20 turns and then re-inserts
the system turn, producing a history of length 21 — exceeding the 20-turn cap
the claim asserts. -/
theorem truncation_cap_counterexample :
    20 < hSys21.length
    ∧ hSys21.head?.map Turn.role = some Role.system
    ∧ (DeepseekClient.truncate_history hSys21).length = 21 := by
  decide

/-- Claim C1 (amended): for every history longer than the cap, the Deepseek
truncation step yields at most 21 turns (one more than the cap, exactly when
the system turn is re-inserted after slicing), and a system turn present at
index 0 before truncation is still present at index 0 after; the plain
slicing truncation of the OpenAI and Anthropic clients yields exactly 20
turns (but performs no system re-insertion). -/
theorem truncation_amended (h : History) (hlen : 20 < h.length) :
    (DeepseekClient.truncate_history h).length ≤ 21
    ∧ (OpenAIClient.truncate_history h).length = 20
    ∧ ∀ t, h.head? = some t → t.role = Role.system →
        ∃ t', (DeepseekClient.truncate_history h).head? = some t'
          ∧ t'.role = Role.system := by
  have hs : (sliceLast 20 h).length = 20 := length_sliceLast 20 h (by omega)
  refine ⟨?_, ?_, ?_⟩
  · simp only [DeepseekClient.truncate_history, if_pos hlen]
    cases hh : h.head? with
    | none => simp [hs]
    | some t0 =>
      by_cases hr : t0.role = Role.system
      · simp only [hr, if_pos rfl]
        cases hh1 : (sliceLast 20 h).head? with
        | none => simp [hs]
        | some t1 =>
          by_cases hr1 : t1.role = Role.system <;> simp [hr1, hs]
      · simp [hr, hs]
  · simp only [OpenAIClient.truncate_history, if_pos hlen]
    exact hs
  · intro t ht hr
    simp only [DeepseekClient.truncate_history, if_pos hlen, ht, hr, if_pos rfl]
    cases hh1 : (sliceLast 20 h).head? with
    | none => exact ⟨t, rfl, hr⟩
    | some t1 =>
      by_cases hr1 : t1.role = Role.system
      · exact ⟨t1, by simp [hr1, hh1], hr1⟩
      · exact ⟨t, by simp [hr1], hr⟩

/-- Claim C1, witness for the amended theorem at the concrete 21-turn
history. -/
theorem truncation_amended_witness :
    20 < hSys21.length
    ∧ ((DeepseekClient.truncate_history hSys21).length ≤ 21
      ∧ (OpenAIClient.truncate_history hSys21).length = 20
      ∧ ∀ t, hSys21.head? = some t → t.role = Role.system →
          ∃ t', (DeepseekClient.truncate_history hSys21).head? = some t'
            ∧ t'.role = Role.system) :=
  ⟨by decide, truncation_amended hSys21 (by decide)⟩

/-- Claim C2: evaluating the code at the failing input.  Starting from a
stored 20-turn history for user `"u"`, one completed `generate_response` call
leaves the stored history at 21 turns: the user-turn append goes through the
alias into the stored list, but `history = history[-20:]` only rebinds the
local name, so the stored per-user state is never truncated and the 20-turn
cap is not an invariant of it. -/
theorem stored_history_exceeds_cap :
    (OpenAIClient.generate_response stored20 "hi" "u" httpOk).2 = "ok"
    ∧ ((dictLookup (OpenAIClient.generate_response stored20 "hi" "u" httpOk).1
        "u").getD []).length = 21 := by
  decide

/-- Claim C3: evaluating the code at the failing input.  With a stored
20-turn history, a 200 response with a well-formed envelope makes
`generate_response` return the extracted reply text `"ok"`, but the stored
conversation's last entry is still the user turn: the assistant turn was
appended to the rebound local copy produced by the truncation slice and is
lost. -/
theorem assistant_reply_not_stored_at_cap :
    (OpenAIClient.generate_response stored20 "hi" "u" httpOk).2 = "ok"
    ∧ ((dictLookup (OpenAIClient.generate_response stored20 "hi" "u" httpOk).1
        "u").getD []).getLast? = some ⟨Role.user, "hi"⟩ := by
  decide

/-- Claim C6: `clear_history` for a user with no entry returns the
"nothing to clear" string and leaves the map unchanged (in particular it
creates no entry); for a user with an entry it returns the cleared
confirmation and sets the entry to the empty sequence. -/
theorem clear_history_spec (hs : Histories) (user_id : String) :
    (dictLookup hs user_id = none →
      AIClient.clear_history hs user_id = (hs, "没有找到对话历史"))
    ∧ ∀ h, dictLookup hs user_id = some h →
        (AIClient.clear_history hs user_id).2 = "对话历史已清除"
        ∧ dictLookup (AIClient.clear_history hs user_id).1 user_id = some [] := by
  constructor
  · intro h
    simp [AIClient.clear_history, h]
  · intro h hl
    simp [AIClient.clear_history, hl, dictLookup_dictSet_self]

/-- Claim C6, witness: both branches of `clear_history` at concrete inputs. -/
theorem clear_history_spec_witness :
    AIClient.clear_history [] "u" = ([], "没有找到对话历史")
    ∧ (AIClient.clear_history [("u", hSys21)] "u").2 = "对话历史已清除" :=
  ⟨(clear_history_spec [] "u").1 rfl,
   ((clear_history_spec [("u", hSys21)] "u").2 hSys21 (by decide)).1⟩

/-- Claim C10: after a `clear_history` on an existing entry, the entry is
empty but still present, and a further `clear_history` call returns the
cleared confirmation (not the "nothing to clear" string) and keeps the empty
entry: `clear_history` distinguishes an absent entry from an empty one. -/
theorem clear_history_empty_entry (hs : Histories) (user_id : String) (h0 : History)
    (h : dictLookup hs user_id = some h0) :
    dictLookup (AIClient.clear_history hs user_id).1 user_id = some []
    ∧ (AIClient.clear_history (AIClient.clear_history hs user_id).1 user_id).2
        = "对话历史已清除"
    ∧ (AIClient.clear_history (AIClient.clear_history hs user_id).1 user_id).2
        ≠ "没有找到对话历史"
    ∧ dictLookup
        (AIClient.clear_history (AIClient.clear_history hs user_id).1 user_id).1
        user_id = some [] := by
  have h1 : (AIClient.clear_history hs user_id).1 = dictSet hs user_id [] := by
    simp [AIClient.clear_history, h]
  have h2 : dictLookup (dictSet hs user_id []) user_id = some [] :=
    dictLookup_dictSet_self hs user_id []
  rw [h1]
  refine ⟨h2, ?_, ?_, ?_⟩
  · simp [AIClient.clear_history, h2]
  · simp only [AIClient.clear_history, h2]
    decide
  · simp [AIClient.clear_history, h2, dictLookup_dictSet_self]

/-- Claim C10, witness: a second clear on an emptied entry at concrete
inputs. -/
theorem clear_history_empty_entry_witness :
    dictLookup (AIClient.clear_history [("u", hSys21)] "u").1 "u" = some []
    ∧ (AIClient.clear_history (AIClient.clear_history [("u", hSys21)] "u").1 "u").2
        = "对话历史已清除"
    ∧ (AIClient.clear_history (AIClient.clear_history [("u", hSys21)] "u").1 "u").2
        ≠ "没有找到对话历史"
    ∧ dictLookup
        (AIClient.clear_history (AIClient.clear_history [("u", hSys21)] "u").1 "u").1
        "u" = some [] :=
  clear_history_empty_entry [("u", hSys21)] "u" hSys21 (by decide)

/-- Claim C4: for every prior state and every provider client, a 401 response
makes `generate_response` return the fixed authentication-failure message,
and the stored conversation for the user ends with the user turn appended
during this call (no assistant turn is appended). -/
theorem auth_failure_behavior (hs : Histories) (prompt user_id body : String)
    (parsed : Except String WireReply) :
    ((OpenAIClient.generate_response hs prompt user_id (.ok 401 body parsed)).2
        = "认证失败，请检查API密钥设置"
      ∧ ((dictLookup (OpenAIClient.generate_response hs prompt user_id
            (.ok 401 body parsed)).1 user_id).getD []).getLast?
          = some ⟨Role.user, stripPrompt prompt⟩)
    ∧ ((AnthropicClient.generate_response hs prompt user_id (.ok 401 body parsed)).2
        = "认证失败，请检查API密钥设置"
      ∧ ((dictLookup (AnthropicClient.generate_response hs prompt user_id
            (.ok 401 body parsed)).1 user_id).getD []).getLast?
          = some ⟨Role.user, stripPrompt prompt⟩)
    ∧ ((DeepseekClient.generate_response hs prompt user_id (.ok 401 body parsed)).2
        = "认证失败，请检查API密钥设置"
      ∧ ((dictLookup (DeepseekClient.generate_response hs prompt user_id
            (.ok 401 body parsed)).1 user_id).getD []).getLast?
          = some ⟨Role.user, stripPrompt prompt⟩) := by
  refine ⟨⟨rfl, ?_⟩, ⟨rfl, ?_⟩, ⟨rfl, ?_⟩⟩ <;>
    simp [openai_generate_401, anthropic_generate_401, deepseek_generate_401,
      dictLookup_dictSet_self, List.getLast?_concat]

/-- Claim C7: a transport-level exception is caught by every provider client:
`generate_response` returns the formatted exception string, the stored
conversation still ends with the user turn just appended (no assistant turn),
and — as the functions are total — nothing propagates; moreover every
non-command message through the dispatcher's entry point produces a reply
text for every possible HTTP outcome. -/
theorem transport_failure_behavior (hs : Histories) (prompt user_id e : String)
    (s : BotState) (uid raw : String) (http : HttpResult)
    (hnc : pyStartsWith (stripMessage raw) "$" = false) :
    ((OpenAIClient.generate_response hs prompt user_id (.exn e)).2 = "请求异常: " ++ e
      ∧ ((dictLookup (OpenAIClient.generate_response hs prompt user_id
            (.exn e)).1 user_id).getD []).getLast?
          = some ⟨Role.user, stripPrompt prompt⟩)
    ∧ ((AnthropicClient.generate_response hs prompt user_id (.exn e)).2 = "请求异常: " ++ e
      ∧ ((dictLookup (AnthropicClient.generate_response hs prompt user_id
            (.exn e)).1 user_id).getD []).getLast?
          = some ⟨Role.user, stripPrompt prompt⟩)
    ∧ ((DeepseekClient.generate_response hs prompt user_id (.exn e)).2 = "请求异常: " ++ e
      ∧ ((dictLookup (DeepseekClient.generate_response hs prompt user_id
            (.exn e)).1 user_id).getD []).getLast?
          = some ⟨Role.user, stripPrompt prompt⟩)
    ∧ ((MultiAIBot.on_message_activity s uid raw http).2).isSome = true := by
  refine ⟨⟨rfl, ?_⟩, ⟨rfl, ?_⟩, ⟨rfl, ?_⟩, ?_⟩
  · simp [openai_generate_exn, dictLookup_dictSet_self, List.getLast?_concat]
  · simp [anthropic_generate_exn, dictLookup_dictSet_self, List.getLast?_concat]
  · simp [deepseek_generate_exn, dictLookup_dictSet_self, List.getLast?_concat]
  · rw [on_message_not_command s uid raw http hnc]
    exact handle_ordinary_isSome s uid (stripMessage raw)
      (MultiAIBot.get_user_ai_choice s uid) http

/-- Claim C7, witness: the exception branch at concrete inputs, together with
a non-command message through the dispatcher. -/
theorem transport_failure_behavior_witness :
    ((OpenAIClient.generate_response [] "p" "u" (.exn "boom")).2 = "请求异常: " ++ "boom"
      ∧ ((dictLookup (OpenAIClient.generate_response [] "p" "u"
            (.exn "boom")).1 "u").getD []).getLast?
          = some ⟨Role.user, stripPrompt "p"⟩)
    ∧ ((AnthropicClient.generate_response [] "p" "u" (.exn "boom")).2 = "请求异常: " ++ "boom"
      ∧ ((dictLookup (AnthropicClient.generate_response [] "p" "u"
            (.exn "boom")).1 "u").getD []).getLast?
          = some ⟨Role.user, stripPrompt "p"⟩)
    ∧ ((DeepseekClient.generate_response [] "p" "u" (.exn "boom")).2 = "请求异常: " ++ "boom"
      ∧ ((dictLookup (DeepseekClient.generate_response [] "p" "u"
            (.exn "boom")).1 "u").getD []).getLast?
          = some ⟨Role.user, stripPrompt "p"⟩)
    ∧ ((MultiAIBot.on_message_activity botEx "u" "hello" (.exn "boom")).2).isSome = true :=
  transport_failure_behavior [] "p" "u" "boom" botEx "u" "hello" (.exn "boom") (by decide)

/-- Claim C5: a `$use` command naming a provider id that is not in the
registry leaves the whole dispatcher state unchanged (in particular
`user_ai_choices` is neither created nor modified), replies with the list of
available provider ids, and a subsequent message still resolves to the same
provider as before. -/
theorem use_unregistered_no_mutation (s : BotState) (user_id raw pid : String)
    (http : HttpResult)
    (hst : pyStartsWith (stripMessage raw) "$" = true)
    (htok : pySplit (stripMessage raw) = ["$use", pid])
    (hpid : dictLookup s.ai_clients pid = none) :
    MultiAIBot.on_message_activity s user_id raw http
      = (s, some ("可用的AI模型: " ++ MultiAIBot.joinClients s))
    ∧ MultiAIBot.get_user_ai_choice
        (MultiAIBot.on_message_activity s user_id raw http).1 user_id
      = MultiAIBot.get_user_ai_choice s user_id := by
  have key : MultiAIBot.on_message_activity s user_id raw http
      = (s, some ("可用的AI模型: " ++ MultiAIBot.joinClients s)) := by
    simp [MultiAIBot.on_message_activity, hst, htok, hpid]
  exact ⟨key, by rw [key]⟩

/-- Claim C5, witness: `$use gemini` against a registry holding only
`openai`. -/
theorem use_unregistered_no_mutation_witness :
    MultiAIBot.on_message_activity botEx "u" "$use gemini" (.exn "e")
      = (botEx, some ("可用的AI模型: " ++ MultiAIBot.joinClients botEx))
    ∧ MultiAIBot.get_user_ai_choice
        (MultiAIBot.on_message_activity botEx "u" "$use gemini" (.exn "e")).1 "u"
      = MultiAIBot.get_user_ai_choice botEx "u" :=
  use_unregistered_no_mutation botEx "u" "$use gemini" "gemini" (.exn "e")
    (by decide) (by decide) (by decide)

/-- Claim C8: a message whose normalised text starts with `$` but whose first
whitespace token is none of `$list`, `$clear`, `$use` falls through to the
ordinary-message path, and — when the user's selection resolves to a
registered client — is routed to that client's `generate_response` exactly
as ordinary text would be. -/
theorem unknown_command_falls_through (s : BotState) (user_id raw : String)
    (http : HttpResult)
    (hst : pyStartsWith (stripMessage raw) "$" = true)
    (h1 : (pySplit (stripMessage raw)).headD "" ≠ "$list")
    (h2 : (pySplit (stripMessage raw)).headD "" ≠ "$clear")
    (h3 : (pySplit (stripMessage raw)).headD "" ≠ "$use") :
    MultiAIBot.on_message_activity s user_id raw http
      = MultiAIBot.handle_ordinary s user_id (stripMessage raw)
          (MultiAIBot.get_user_ai_choice s user_id) http
    ∧ ∀ c cl, MultiAIBot.get_user_ai_choice s user_id = some c →
        dictLookup s.ai_clients c = some cl →
        MultiAIBot.on_message_activity s user_id raw http
          = ({ s with
                ai_clients :=
                  dictSet s.ai_clients c
                    (cl.generate_response (stripMessage raw) user_id http).1 },
             some (cl.generate_response (stripMessage raw) user_id http).2) := by
  have key : MultiAIBot.on_message_activity s user_id raw http
      = MultiAIBot.handle_ordinary s user_id (stripMessage raw)
          (MultiAIBot.get_user_ai_choice s user_id) http := by
    simp only [List.headD_eq_head?_getD] at h1 h2 h3
    simp [MultiAIBot.on_message_activity, hst, h1, h2, h3]
  refine ⟨key, ?_⟩
  intro c cl hc hcl
  rw [key]
  simp [MultiAIBot.handle_ordinary, hc, hcl, dictLookup_some_not_nil hcl]

/-- Claim C8, witness: `$foo hello` against a registry holding `openai`,
routed to the OpenAI client like ordinary text. -/
theorem unknown_command_falls_through_witness :
    MultiAIBot.on_message_activity botEx "u" "$foo hello" (.exn "e")
      = MultiAIBot.handle_ordinary botEx "u" (stripMessage "$foo hello")
          (MultiAIBot.get_user_ai_choice botEx "u") (.exn "e")
    ∧ ∀ c cl, MultiAIBot.get_user_ai_choice botEx "u" = some c →
        dictLookup botEx.ai_clients c = some cl →
        MultiAIBot.on_message_activity botEx "u" "$foo hello" (.exn "e")
          = ({ botEx with
                ai_clients :=
                  dictSet botEx.ai_clients c
                    (cl.generate_response (stripMessage "$foo hello") "u" (.exn "e")).1 },
             some (cl.generate_response (stripMessage "$foo hello") "u" (.exn "e")).2) :=
  unknown_command_falls_through botEx "u" "$foo hello" (.exn "e")
    (by decide) (by decide) (by decide) (by decide)

/-- Claim C9: a user with no selection entry resolves to `default_ai`; the
startup default is `"openai"` whenever the OpenAI key is configured, and
otherwise the first configured provider in registration order (openai,
anthropic, deepseek); with no provider configured the registry is empty, the
default is `None`, and any ordinary message is answered with the fixed
"no service configured" text. -/
theorem default_provider_resolution :
    (∀ (s : BotState) (uid : String), dictLookup s.user_ai_choices uid = none →
        MultiAIBot.get_user_ai_choice s uid = s.default_ai)
    ∧ (∀ ok ak dk, MultiAIBot.keyPresent ok = true →
        (MultiAIBot.mkBot ok ak dk).default_ai = some "openai")
    ∧ (∀ ok ak dk, MultiAIBot.keyPresent ok = false → MultiAIBot.keyPresent ak = true →
        (MultiAIBot.mkBot ok ak dk).default_ai = some "anthropic")
    ∧ (∀ ok ak dk, MultiAIBot.keyPresent ok = false → MultiAIBot.keyPresent ak = false →
        MultiAIBot.keyPresent dk = true →
        (MultiAIBot.mkBot ok ak dk).default_ai = some "deepseek")
    ∧ (∀ ok ak dk, MultiAIBot.keyPresent ok = false → MultiAIBot.keyPresent ak = false →
        MultiAIBot.keyPresent dk = false →
        (MultiAIBot.mkBot ok ak dk).ai_clients = []
        ∧ (MultiAIBot.mkBot ok ak dk).default_ai = none)
    ∧ (∀ ok ak dk uid raw http, MultiAIBot.keyPresent ok = false →
        MultiAIBot.keyPresent ak = false → MultiAIBot.keyPresent dk = false →
        pyStartsWith (stripMessage raw) "$" = false →
        MultiAIBot.on_message_activity (MultiAIBot.mkBot ok ak dk) uid raw http
          = (MultiAIBot.mkBot ok ak dk, some "系统错误：未配置任何AI服务，请联系管理员")) := by
  refine ⟨?_, ?_, ?_, ?_, ?_, ?_⟩
  · intro s uid h
    simp [MultiAIBot.get_user_ai_choice, h]
  · intro ok ak dk hok
    simp [MultiAIBot.mkBot, MultiAIBot.build_ai_clients, hok, dictLookup]
  · intro ok ak dk hok hak
    cases hdk : MultiAIBot.keyPresent dk <;>
      simp [MultiAIBot.mkBot, MultiAIBot.build_ai_clients, hok, hak, hdk, dictLookup]
  · intro ok ak dk hok hak hdk
    simp [MultiAIBot.mkBot, MultiAIBot.build_ai_clients, hok, hak, hdk, dictLookup]
  · intro ok ak dk hok hak hdk
    simp [MultiAIBot.mkBot, MultiAIBot.build_ai_clients, hok, hak, hdk, dictLookup]
  · intro ok ak dk uid raw http hok hak hdk hnc
    have hempty : (MultiAIBot.mkBot ok ak dk).ai_clients = [] := by
      simp [MultiAIBot.mkBot, MultiAIBot.build_ai_clients, hok, hak, hdk]
    rw [on_message_not_command _ uid raw http hnc]
    simp [MultiAIBot.handle_ordinary, hempty]

/-- Claim C9, witness: the default at concrete key configurations, and an
ordinary message against the empty registry. -/
theorem default_provider_resolution_witness :
    MultiAIBot.get_user_ai_choice botEx "u" = botEx.default_ai
    ∧ (MultiAIBot.mkBot (some "k") none none).default_ai = some "openai"
    ∧ (MultiAIBot.mkBot none (some "k") (some "k")).default_ai = some "anthropic"
    ∧ (MultiAIBot.mkBot none none (some "k")).default_ai = some "deepseek"
    ∧ (MultiAIBot.mkBot none none none).ai_clients = []
    ∧ MultiAIBot.on_message_activity (MultiAIBot.mkBot none none none) "u" "hello"
        (.exn "e")
      = (MultiAIBot.mkBot none none none, some "系统错误：未配置任何AI服务，请联系管理员") :=
  ⟨default_provider_resolution.1 botEx "u" (by decide),
   default_provider_resolution.2.1 (some "k") none none (by decide),
   default_provider_resolution.2.2.1 none (some "k") (some "k") (by decide) (by decide),
   default_provider_resolution.2.2.2.1 none none (some "k") (by decide) (by decide) (by decide),
   (default_provider_resolution.2.2.2.2.1 none none none (by decide) (by decide) (by decide)).1,
   default_provider_resolution.2.2.2.2.2 none none none "u" "hello" (.exn "e")
     (by decide) (by decide) (by decide) (by decide)⟩
